import Mathlib

/-!
# Verification of the dl4seq hyperparameter-search orchestrator

Shallow embedding of `src/dl4seq/hyper_opt/hyper_opt.py` (class `HyperOpt`
and the module-level helpers), checked against the natural-language
specification of the repository.  Python values that the orchestrator
manipulates are modelled by `PyVal` (machine integers as `Int`, floats as
exact rationals, strings as `String`); Python dictionaries are modelled as
association lists in insertion order; fallible code returns `Except`.
-/

namespace DL4Seq

deriving instance DecidableEq for Except

/-- A Python scalar value as it appears in parameter spaces and trials:
an `int`, a `float` (modelled as an exact rational) or a `str`. -/
inductive PyVal
  | int (n : Int)
  | float (q : ℚ)
  | str (s : String)
deriving DecidableEq, Repr

/-- The four backend names accepted by `HyperOpt.backend`
(`hyper_opt.py` line 381: optuna, hyperopt, sklearn, skopt).
In the vocabulary of the spec: `sklearn` = native-enumeration,
`skopt` = sequential-model-based, `hyperopt` = density-ratio-sequential,
`optuna` = trial-study. -/
inductive Backend
  | optuna
  | hyperopt
  | sklearn
  | skopt
deriving DecidableEq, Repr, Fintype

/-- The module-level `ALGORITHMS` table (`hyper_opt.py` lines 72-82),
keeping only the machine-relevant `backend` lists (the human-readable
`name` strings are dropped; the `bayes` entry has no `backend` key,
modelled as the empty list). -/
def ALGORITHMS : List (String × List Backend) :=
  [("gp", [.skopt]),
   ("bayes", []),
   ("forest", [.skopt]),
   ("gbrt", [.skopt]),
   ("tpe", [.hyperopt, .optuna]),
   ("atpe", [.hyperopt]),
   ("random", [.sklearn, .optuna, .hyperopt]),
   ("grid", [.sklearn, .optuna]),
   ("cmaes", [.optuna])]

/-- The keys of `ALGORITHMS`, i.e. the algorithm names that pass the
algorithm-name validation of the constructor (`hyper_opt.py` lines
328-331). -/
def algorithmNames : List String := ALGORITHMS.map Prod.fst

/-- The backend compatibility set of an algorithm as recorded in the
`ALGORITHMS` table (empty when the table has no `backend` entry). -/
def tableCompat (algorithm : String) : List Backend :=
  (ALGORITHMS.lookup algorithm).getD []

/-- The `HyperOpt.backend` property setter (`hyper_opt.py` lines 378-408).
A supplied backend is first checked against the four known names (always
true in this typed model); then algorithm-specific defaulting and
`assert`-based validation run; unknown algorithms hit the final
`raise ValueError`.  Failed asserts are modelled as `Except.error`. -/
def backendSetter (algorithm : String) (x? : Option Backend) :
    Except String Backend :=
  if algorithm = "tpe" then
    let x := x?.getD .optuna
    if x = .optuna ∨ x = .hyperopt then .ok x
    else .error "AssertionError"
  else if algorithm = "cmaes" then
    let x := x?.getD .optuna
    if x = .optuna then .ok x else .error "AssertionError"
  else if algorithm = "atpe" then
    let x := x?.getD .hyperopt
    if x = .hyperopt then .ok x else .error "AssertionError"
  else if algorithm = "random" then
    let x := x?.getD .sklearn
    if x = .optuna ∨ x = .hyperopt ∨ x = .sklearn then .ok x
    else .error "AssertionError"
  else if algorithm = "grid" then
    let x := x?.getD .sklearn
    if x = .sklearn ∨ x = .optuna then .ok x
    else .error "AssertionError"
  else if algorithm = "bayes" then
    .ok (x?.getD .skopt)
  else
    .error "ValueError"

/-- The algorithm/backend validation performed by `HyperOpt.__init__`
(`hyper_opt.py` lines 328-335): the algorithm name must be a key of
`ALGORITHMS`, then `self.backend = backend` runs the setter.  No later
constructor step rejects an accepted pair (the `use_own` branch selects a
fit function for every accepted combination and the trailing
`NotImplementedError` branch is unreachable), so this function decides
construction success as far as the `(algorithm, backend)` pair goes. -/
def constructValidate (algorithm : String) (backend? : Option Backend) :
    Except String Backend :=
  if algorithm ∈ algorithmNames then backendSetter algorithm backend?
  else .error "ValueError: invalid algorithm"

/-- The compatibility sets the backend setter actually enforces for a
supplied backend, read off `hyper_opt.py` lines 378-408: `bayes` accepts
all four backends (its branch has no assert); `gp`, `forest` and `gbrt`
accept none (they fall into the `raise ValueError` branch). -/
def observedCompat (algorithm : String) : List Backend :=
  if algorithm = "tpe" then [.optuna, .hyperopt]
  else if algorithm = "cmaes" then [.optuna]
  else if algorithm = "atpe" then [.hyperopt]
  else if algorithm = "random" then [.optuna, .hyperopt, .sklearn]
  else if algorithm = "grid" then [.sklearn, .optuna]
  else if algorithm = "bayes" then [.optuna, .hyperopt, .sklearn, .skopt]
  else []

/-! ## Grid enumeration (`grid_search` via sklearn `ParameterGrid`) -/

/-- Kernel-computable lexicographic comparison of character lists
(Unicode code point order, as Python string comparison). -/
def charListLt : List Char → List Char → Bool
  | [], [] => false
  | [], _ :: _ => true
  | _ :: _, [] => false
  | c :: cs, d :: ds =>
    if c < d then true else if d < c then false else charListLt cs ds

/-- Strict string order used by the Python built-in `sorted` on the
dimension names (code point lexicographic order). -/
def strLt (a b : String) : Bool := charListLt a.data b.data

/-- The key-sorting step of `sklearn.model_selection.ParameterGrid`
(called by `HyperOpt.grid_search`, line 911): `items = sorted(p.items())`
sorts the dimensions alphabetically by name (stable sort). -/
def sortDims (g : List (String × List PyVal)) : List (String × List PyVal) :=
  g.insertionSort (fun a b => strLt a.1 b.1 = true)

/-- Cartesian enumeration in the order of `itertools.product` as used by
`ParameterGrid`: the first listed dimension varies slowest, and each
produced trial is the mapping `dict(zip(keys, v))` in that listing order. -/
def cartesian : List (String × List PyVal) → List (List (String × PyVal))
  | [] => [[]]
  | (k, vs) :: rest =>
      vs.flatMap (fun v => (cartesian rest).map (fun c => (k, v) :: c))

/-- `list(ParameterGrid(param_space))` as computed by
`HyperOpt.grid_search` (lines 909-914): all combinations of the
alphabetically sorted dimensions, the alphabetically first dimension
varying slowest. -/
def paramGrid (g : List (String × List PyVal)) :
    List (List (String × PyVal)) :=
  cartesian (sortDims g)

/-! ## Objective invocation (`use_named_args`, `eval_sequence`) -/

/-- `HyperOpt.use_named_args` (lines 697-707): `True` when the built-in
dl4seq model is used; otherwise `True` exactly when
`inspect.getfullargspec(objective_fn).varkw` is a string, i.e. when the
objective accepts arbitrary keyword arguments. -/
def use_named_args (use_dl4seq_model : Bool) (varkw : Option String) :
    Bool :=
  if use_dl4seq_model then true
  else
    match varkw with
    | none => false
    | some _ => true

/-- The shape of a single objective call. -/
inductive Invocation
  | kwargs (para : List (String × PyVal))
  | positional (args : List PyVal)
deriving DecidableEq, Repr

/-- The call `eval_Sequence` makes for one parameter set (lines 885-896,
external objective): keyword call with the whole mapping when
`use_named_args` holds, else positional call with `list(para.values())`,
the values in the key order of the mapping itself (for grid search, the
alphabetically sorted order produced by `ParameterGrid`). -/
def invocationOf (useNamed : Bool) (para : List (String × PyVal)) :
    Invocation :=
  if useNamed then .kwargs para else .positional (para.map Prod.snd)

/-- The positional convention the claim describes: values drawn in the
canonical parameter order of the space. -/
def canonicalPositional (canonicalOrder : List String)
    (para : List (String × PyVal)) : List PyVal :=
  canonicalOrder.filterMap (fun k => para.lookup k)

/-- One objective evaluation with the error handling of lines 885-896:
when `use_named_args` holds the keyword call runs with no surrounding
try, so its errors propagate unchanged; otherwise the positional call
runs and a `TypeError` from it is replaced by the chained `TypeError`
message about `use_named_args` — the keyword convention is never
attempted in that case. -/
def evalObjectiveOnce (useNamed : Bool)
    (fKw : List (String × PyVal) → Except String ℚ)
    (fPos : List PyVal → Except String ℚ)
    (para : List (String × PyVal)) : Except String ℚ :=
  if useNamed then fKw para
  else
    match fPos (para.map Prod.snd) with
    | .ok v => .ok v
    | .error _ =>
        .error "TypeError: use_named_args argument is set to False"

/-! ## Result recording (`eval_sequence`) and best lookup (`best_paras`) -/

/-- Round-half-to-even of `q * 10 ^ 8` at integer precision, the rounding
rule of the Python built-in `round`, written on the numerator and
denominator so that the kernel can evaluate it: with `f` the floor of
`q * 10 ^ 8` and `r` the numerator of its fractional part, the fraction
is below, above or exactly one half according to `2 * r` against the
denominator. -/
def roundHalfEvenAt8 (q : ℚ) : ℤ :=
  let n := q.num * 100000000
  let d := (q.den : ℤ)
  let f := Int.fdiv n d
  let r := n - f * d
  if 2 * r < d then f
  else if d < 2 * r then f + 1
  else if f % 2 = 0 then f else f + 1

/-- `round(err, 8)` (line 897): round to 8 decimal places, half to even.
Exact-rational model of the float rounding of the source. -/
def round8 (q : ℚ) : ℚ := mkRat (roundHalfEvenAt8 q) 100000000

/-- Addition of a natural number to a rational, written through `mkRat`
so that the kernel can evaluate it (see `qAddNat_eq`: it agrees with the
ordinary `+`). -/
def qAddNat (a : ℚ) (n : ℕ) : ℚ := mkRat (a.num + n * (a.den : ℤ)) a.den

/-- Modelled from the spec: `sort_x_iters`, imported from
`dl4seq.hyper_opt.utils` — a module of this repository that is absent
from `src/` — reorders a parameter mapping into the given canonical name
order (spec section 6: records are written in canonical parameter
order). -/
def sort_x_iters (para : List (String × PyVal)) (order : List String) :
    List (String × PyVal) :=
  order.filterMap (fun k => (para.lookup k).map (fun v => (k, v)))

/-- Assignment `d[k] = v` on a Python dict modelled as an association
list: an existing key keeps its position and has its value replaced, a
new key is appended. -/
def dictInsert (k : ℚ) (v : List (String × PyVal)) :
    List (ℚ × List (String × PyVal)) → List (ℚ × List (String × PyVal))
  | [] => [(k, v)]
  | (k', v') :: rest =>
      if k = k' then (k, v) :: rest else (k', v') :: dictInsert k v rest

/-- `HyperOpt.eval_sequence` (lines 880-907) for an external objective
(`use_dl4seq_model` false), restricted to its result-recording effect:
for each parameter set, in order, evaluate the objective, round the error
to 8 decimals, and store the reordered parameters under the key
`err + idx` — the rounded objective value PLUS the zero-based trial
index (line 900: `self.results[err + idx] = sort_x_iters(para, ...)`).
An evaluation error aborts the loop, as in the source. -/
def eval_sequence (useNamed : Bool)
    (fKw : List (String × PyVal) → Except String ℚ)
    (fPos : List PyVal → Except String ℚ)
    (order : List String)
    (params : List (List (String × PyVal))) :
    Except String (List (ℚ × List (String × PyVal))) :=
  params.enum.foldlM
    (fun results (it : Nat × List (String × PyVal)) => do
      let err ← evalObjectiveOnce useNamed fKw fPos it.2
      let err := round8 err
      pure (dictInsert (qAddNat err it.1) (sort_x_iters it.2 order) results))
    []

/-- `HyperOpt.best_paras` (lines 724-746), final branch (native/sklearn
style runs recorded by `eval_sequence`):
`best_y = list(sorted(self.results.keys()))[0]` — the minimum stored
key — then `sort_x_iters(self.results[best_y], param_space.keys())`.
`none` models the IndexError on an empty result store. -/
def best_paras_results (results : List (ℚ × List (String × PyVal)))
    (orderKeys : List String) : Option (List (String × PyVal)) :=
  match (results.map Prod.fst).min? with
  | none => none
  | some k => (results.lookup k).map (fun p => sort_x_iters p orderKeys)

/-! ## Parameter-space inference (`space_from_list`) -/

/-- Modelled from the spec: the dimension classes `Real`, `Integer` and
`Categorical` imported from `dl4seq.hyper_opt.utils` (a module of this
repository absent from `src/`), as tagged records per spec section 3:
numeric kinds carry `low`/`high` bounds, an optional `prior` and an
optional explicit `grid`; `Categorical` carries its ordered value
sequence.  Constructor arguments not supplied at a call site are
`none`. -/
inductive Dimension
  | Real (low high : Option ℚ) (prior : Option String)
      (grid : Option (List PyVal)) (name : String)
  | Integer (low high : Option ℚ) (prior : Option String)
      (grid : Option (List PyVal)) (name : String)
  | Categorical (values : List PyVal) (name : String)
deriving DecidableEq, Repr

/-- The name of a dimension. -/
def Dimension.name : Dimension → String
  | .Real _ _ _ _ n => n
  | .Integer _ _ _ _ n => n
  | .Categorical _ n => n

/-- Whether a dimension is the `Categorical` kind. -/
def Dimension.isCat : Dimension → Bool
  | .Categorical _ _ => true
  | _ => false

/-- Numeric reading of a Python value, `none` on a string. -/
def toQ : PyVal → Option ℚ
  | .int n => some (n : ℚ)
  | .float q => some q
  | .str _ => none

/-- `np.min` over a literal list, modelled for all-numeric lists as the
exact rational minimum; `none` on an empty or not-all-numeric list. -/
def npMinQ : List PyVal → Option ℚ
  | [] => none
  | [v] => toQ v
  | v :: rest =>
      match toQ v, npMinQ rest with
      | some q, some m => some (min q m)
      | _, _ => none

/-- `np.max` over a literal list, modelled for all-numeric lists as the
exact rational maximum; `none` on an empty or not-all-numeric list. -/
def npMaxQ : List PyVal → Option ℚ
  | [] => none
  | [v] => toQ v
  | v :: rest =>
      match toQ v, npMaxQ rest with
      | some q, some m => some (max q m)
      | _, _ => none

/-- `space_from_list` (lines 1291-1308): branch on `len(v) > 2` and on
the Python type of `v[0]`.  Length over 2: an `int` head gives
`Integer(grid=v)`, a `float` head gives `Real(grid=v)`, anything else
gives `Categorical(v)`.  Length at most 2: an `int` head gives
`Integer(low=np.min(v), high=np.max(v))`, a `float` head the `Real`
analogue, a `str` head gives `Categorical(v)`.  The empty list (IndexError
on `v[0]`) and a numeric-headed short list with a non-numeric member
(where the numpy reduction leaves the numeric domain) are modelled as
errors. -/
def space_from_list (v : List PyVal) (k : String) :
    Except String Dimension :=
  match v with
  | [] => .error "IndexError"
  | v0 :: _ =>
    if 2 < v.length then
      match v0 with
      | .int _ => .ok (.Integer none none none (some v) k)
      | .float _ => .ok (.Real none none none (some v) k)
      | .str _ => .ok (.Categorical v k)
    else
      match v0 with
      | .int _ =>
          match npMinQ v, npMaxQ v with
          | some lo, some hi => .ok (.Integer (some lo) (some hi) none none k)
          | _, _ => .error "TypeError"
      | .float _ =>
          match npMinQ v, npMaxQ v with
          | some lo, some hi => .ok (.Real (some lo) (some hi) none none k)
          | _, _ => .error "TypeError"
      | .str _ => .ok (.Categorical v k)

/-! ## Persistence and reconstruction (`save_iterations_as_xy`,
`from_gp_parameters`, `xy_of_iterations`, `best_paras` skopt branch) -/

/-- A JSON-like value: a Python scalar, an array, or an object whose
entries keep insertion order. -/
inductive JVal
  | prim (v : PyVal)
  | arr (l : List JVal)
  | obj (entries : List (String × JVal))

/-- Subscript access `j[k]` on a loaded JSON object: `KeyError` when the
key is absent, `TypeError` when the value is not an object. -/
def jlookup (j : JVal) (k : String) : Except String JVal :=
  match j with
  | .obj entries =>
      match entries.lookup k with
      | some v => .ok v
      | none => .error ("KeyError: " ++ k)
  | _ => .error ("TypeError: " ++ k)

/-- A JSON value read as a string. -/
def asStr : JVal → Except String String
  | .prim (.str s) => .ok s
  | _ => .error "TypeError: str"

/-- A JSON value read as a number. -/
def asQ : JVal → Except String ℚ
  | .prim (.int n) => .ok (n : ℚ)
  | .prim (.float q) => .ok q
  | _ => .error "TypeError: num"

/-- Effectful map over a list in the `Except` monad, written out
structurally (the Python `for` loop that fails on the first error). -/
def mapExcept (f : α → Except String β) : List α → Except String (List β)
  | [] => .ok []
  | a :: l => do
      let b ← f a
      let bs ← mapExcept f l
      pure (b :: bs)

/-- A JSON array read as a list of scalars. -/
def asPyList : JVal → Except String (List PyVal)
  | .arr l =>
      mapExcept
        (fun j =>
          match j with
          | .prim v => .ok v
          | _ => .error "TypeError: scalar") l
  | _ => .error "TypeError: list"

/-- One iteration of the `for sp_name, sp_paras in space.items()` loop of
`HyperOpt.from_gp_parameters` (lines 1189-1197): dispatch on
`sp_paras['type']` and rebuild the dimension; an unknown type tag raises
`NotImplementedError`. -/
def dim_of_sp_record (name : String) (j : JVal) :
    Except String Dimension := do
  let t ← jlookup j "type" >>= asStr
  if t = "Categorical" then do
    let cats ← jlookup j "categories" >>= asPyList
    pure (.Categorical cats name)
  else if t = "Integer" then do
    let lo ← jlookup j "low" >>= asQ
    let hi ← jlookup j "high" >>= asQ
    let pr ← jlookup j "prior" >>= asStr
    pure (.Integer (some lo) (some hi) (some pr) none name)
  else if t = "Real" then do
    let lo ← jlookup j "low" >>= asQ
    let hi ← jlookup j "high" >>= asQ
    let pr ← jlookup j "prior" >>= asStr
    pure (.Real (some lo) (some hi) (some pr) none name)
  else
    .error "NotImplementedError"

/-- The reconstructed orchestrator state that the best-trial query reads:
the ordered parameter space and the stored gp-minimize results record
(`self.gpmin_results`). -/
structure Optimizer where
  param_space : List Dimension
  gpmin_results : Option JVal

/-- The dimension names of the space of an optimizer, in order (the keys
of `space()`). -/
def Optimizer.space_names (o : Optimizer) : List String :=
  o.param_space.map Dimension.name

/-- `HyperOpt.from_gp_parameters` (lines 1181-1206) at the record level:
read the `space` field of the loaded record (a `KeyError` when absent —
in particular on a trial-history record, which has only string-encoded
objective values as keys), rebuild each dimension from its serialized
form, construct a `bayes`/`skopt` orchestrator (that construction always
succeeds, see the backend-setter facts) and store the whole loaded record
as `gpmin_results`. -/
def from_gp_parameters_json (g : JVal) : Except String Optimizer := do
  let sp ← jlookup g "space"
  match sp with
  | .obj entries => do
      let spaces ← mapExcept (fun e => dim_of_sp_record e.1 e.2) entries
      pure { param_space := spaces, gpmin_results := some g }
  | _ => .error "AttributeError: items"

/-- The dimension names listed in the `space` field of a gp-results
record, in order. -/
def space_field_names (g : JVal) : Option (List String) :=
  match jlookup g "space" with
  | .ok (.obj entries) => some (entries.map Prod.fst)
  | _ => none

/-- `HyperOpt.to_kw` (lines 1138-1153): `dict(zip(names, x))` with the
dimension names of the space. -/
def to_kw (names : List String) (x : List PyVal) :
    List (String × PyVal) :=
  List.zip names x

/-- The lookup key `float(f'..')` built by the skopt branch of
`xy_of_iterations` (line 1028), which appends the trial index to the
printed objective value.  Modelled as the pair (objective value, trial
index), ordered lexicographically: the index only perturbs digits beyond
the printed value. -/
def iterKey (k : ℚ) (idx : Nat) : ℚ × Nat := (k, idx)

/-- Strict order on iteration keys (value first, then appended index). -/
def keyLt (a b : ℚ × Nat) : Bool :=
  decide (a.1 < b.1) || (decide (a.1 = b.1) && decide (a.2 < b.2))

/-- Minimum of a list of iteration keys under `keyLt` (the head of the
Python `sorted` list of keys). -/
def minKey (l : List (ℚ × Nat)) : Option (ℚ × Nat) :=
  l.foldl
    (fun acc k =>
      match acc with
      | none => some k
      | some m => if keyLt k m then some k else some m)
    none

/-- The skopt branch of `HyperOpt.xy_of_iterations` (lines 1025-1028):
zip the recorded `func_vals` and `x_iters` of `gpmin_results` with the
trial index, keying each trial by `iterKey` and rendering its parameters
through `to_kw` with the space names. -/
def xy_of_iterations_skopt (names : List String) (g : JVal) :
    Except String (List ((ℚ × Nat) × List (String × PyVal))) := do
  let fvJ ← jlookup g "func_vals"
  let fv ← match fvJ with
           | .arr l => mapExcept asQ l
           | _ => .error "TypeError: func_vals"
  let xiJ ← jlookup g "x_iters"
  let xi ← match xiJ with
           | .arr l => mapExcept asPyList l
           | _ => .error "TypeError: x_iters"
  pure (((List.zip fv xi).enum).map
    (fun it => (iterKey it.2.1 it.1, to_kw names it.2.2)))

/-- `HyperOpt.best_paras` (lines 724-729), `use_skopt_gpmin` branch:
`d = self.xy_of_iterations()`, then the first key of the sorted dict and
its parameter mapping. -/
def best_paras_gpmin (names : List String) (g : JVal) :
    Except String (List (String × PyVal)) := do
  let d ← xy_of_iterations_skopt names g
  match minKey (d.map Prod.fst) with
  | none => .error "IndexError"
  | some k =>
      match d.lookup k with
      | some p => .ok p
      | none => .error "KeyError"

/-- The best-trial query of an optimizer holding gp-minimize results;
the assert of line 1026 fires when `gpmin_results` is unpopulated. -/
def Optimizer.best (o : Optimizer) :
    Except String (List (String × PyVal)) :=
  match o.gpmin_results with
  | some g => best_paras_gpmin o.space_names g
  | none => .error "AssertionError: gpmin_results is not populated yet"

/-- `HyperOpt.save_iterations_as_xy` (lines 1276-1288) at the record
level: the trial-history record is the iterations mapping with each
numeric key rendered as a string (the jsonization step turns the float
keys of `results` into their printed form). -/
def save_iterations_record
    (results : List (ℚ × List (String × PyVal))) : JVal :=
  .obj (results.map
    (fun kv =>
      (toString kv.1, JVal.obj (kv.2.map (fun nv => (nv.1, .prim nv.2))))))

/-! ## Dynamic attribute lookup (`__getattr__`) -/

/-- The attributes `HyperOpt.__init__` assigns on `self` along the
`use_skopt_gpmin` path (lines 333-346 via `check_args`, and line 358);
the own/hyperopt/optuna variants assign the same set plus `predict`.
None of these paths assigns `optfn`. -/
def gpminPathAttrs : List String :=
  ["objective_fn", "algorithm", "_backend", "_param_space",
   "original_space", "dl4seq_args", "_title", "results", "gpmin_results",
   "data", "eval_on_best", "_opt_path", "gpmin_args", "use_dl4seq_model",
   "fit"]

/-- Fuel-bounded model of Python attribute lookup on a `HyperOpt`
instance.  `defined` is the set of attributes found by normal lookup
(instance dict and class); on a miss, `__getattr__` (lines 441-449) runs:
it evaluates `self.optfn` — itself a full attribute lookup, recursing
into `__getattr__` when `optfn` is undefined — and then asks
`hasattr(self.optfn, item)` (abstracted as `optfnHas`), returning the
forwarded attribute or raising `AttributeError`.  `none` means the fuel
ran out, i.e. the lookup did not terminate within the given depth. -/
def getattrModel (defined : List String) (optfnHas : String → Bool) :
    Nat → String → Option (Except String String)
  | 0, _ => none
  | fuel + 1, item =>
    if item ∈ defined then some (.ok item)
    else
      match getattrModel defined optfnHas fuel "optfn" with
      | none => none
      | some (.error e) => some (.error e)
      | some (.ok _) =>
          if optfnHas item then some (.ok ("optfn." ++ item))
          else
            some (.error ("AttributeError: Attribute " ++ item ++
              " not found"))

/-! ## Concrete inputs used by counterexamples and witnesses -/

/-- A two-dimensional space whose insertion (canonical) order `b`, `a` is
the reverse of the alphabetical order. -/
def gOrder : List (String × List PyVal) :=
  [("b", [.int 0, .int 1]), ("a", [.int 10, .int 11])]

/-- A two-dimensional space with canonical order `y`, `x`, one value per
dimension. -/
def gCanon : List (String × List PyVal) :=
  [("y", [.int 5]), ("x", [.int 3])]

/-- A small space used to instantiate the grid-search theorem. -/
def gSmall : List (String × List PyVal) :=
  [("n", [.int 1, .int 2]), ("m", [.int 3])]

/-- Parameter sets of two one-dimensional trials, `x = 0` and `x = 1`. -/
def exParams : List (List (String × PyVal)) :=
  [[("x", .int 0)], [("x", .int 1)]]

/-- A keyword objective that always succeeds (used to show it is not
consulted on the positional path). -/
def exKw : List (String × PyVal) → Except String ℚ := fun _ => .ok 0

/-- A positional objective with value 1 at `x = 0` and 1/2 at `x = 1`. -/
def exPos : List PyVal → Except String ℚ :=
  fun args => if args = [.int 0] then .ok 1 else .ok (mkRat 1 2)

/-- A positional objective with value 2 at `x = 0` and 1 at `x = 1`. -/
def exPos2 : List PyVal → Except String ℚ :=
  fun args => if args = [.int 0] then .ok 2 else .ok 1

/-- A positional objective that always raises a signature mismatch. -/
def exPosFail : List PyVal → Except String ℚ :=
  fun _ => .error "TypeError: unexpected positional arguments"

/-- A gp-results record with one Integer dimension, two trials. -/
def gRecEx : JVal :=
  .obj
    [("space",
      .obj [("x",
        .obj [("type", .prim (.str "Integer")),
              ("low", .prim (.int 0)),
              ("high", .prim (.int 5)),
              ("prior", .prim (.str "uniform"))])]),
     ("x_iters", .arr [.arr [.prim (.int 3)], .arr [.prim (.int 1)]]),
     ("func_vals", .arr [.prim (.float (mkRat 7 10)), .prim (.float (mkRat 3 10))])]

/-- The optimizer rebuilt from `gRecEx`. -/
def optEx : Optimizer :=
  { param_space := [.Integer (some 0) (some 5) (some "uniform") none "x"],
    gpmin_results := some gRecEx }

/-- A live-run optimizer state that carries `gRecEx` as its results and
has the same dimension names (with a different dimension kind, which the
best-trial query never inspects). -/
def liveEx : Optimizer :=
  { param_space := [.Real (some 0) (some 5) (some "uniform") none "x"],
    gpmin_results := some gRecEx }

/-! ## Shared helper lemmas -/

/-- The cartesian enumeration has as many trials as the product of the
value counts of the dimensions. -/
theorem cartesian_length (g : List (String × List PyVal)) :
    (cartesian g).length = (g.map (fun d => d.2.length)).prod := by
  induction g with
  | nil => simp [cartesian]
  | cons d rest ih =>
    obtain ⟨k, vs⟩ := d
    simp [cartesian, List.length_flatMap, ih, Function.comp_def,
      List.map_const', List.sum_replicate, smul_eq_mul, Nat.mul_comm]

/-- A trial list belongs to the cartesian enumeration exactly when it
picks, dimension by dimension in order, one value of each dimension. -/
theorem mem_cartesian (g : List (String × List PyVal))
    (c : List (String × PyVal)) :
    c ∈ cartesian g ↔
      List.Forall₂ (fun kv d => kv.1 = d.1 ∧ kv.2 ∈ d.2) c g := by
  induction g generalizing c with
  | nil =>
    simp [cartesian, List.forall₂_nil_right_iff]
  | cons d rest ih =>
    obtain ⟨k, vs⟩ := d
    simp only [cartesian, List.mem_flatMap, List.mem_map,
      List.forall₂_cons_right_iff]
    constructor
    · rintro ⟨v, hv, c', hc', rfl⟩
      exact ⟨(k, v), c', ⟨rfl, hv⟩, (ih c').mp hc', rfl⟩
    · rintro ⟨⟨k', v⟩, c', ⟨hk, hv⟩, hc', rfl⟩
      cases hk
      exact ⟨v, hv, c', (ih c').mpr hc', rfl⟩

/-- With duplicate-free value lists, the cartesian enumeration repeats no
combination. -/
theorem cartesian_nodup (g : List (String × List PyVal))
    (h : ∀ d ∈ g, d.2.Nodup) : (cartesian g).Nodup := by
  induction g with
  | nil => simp [cartesian]
  | cons d rest ih =>
    obtain ⟨k, vs⟩ := d
    have hvs : vs.Nodup := h (k, vs) (List.mem_cons_self _ _)
    have hrest : (cartesian rest).Nodup :=
      ih (fun d hd => h d (List.mem_cons_of_mem _ hd))
    simp only [cartesian]
    rw [List.nodup_flatMap]
    refine ⟨fun v _ => hrest.map fun c c' hcc => ?_, ?_⟩
    · injection hcc
    · refine hvs.imp ?_
      intro v v' hne x hx hx'
      rcases List.mem_map.1 hx with ⟨c, _, rfl⟩
      rcases List.mem_map.1 hx' with ⟨c', _, heq⟩
      injection heq with h1 _
      exact hne (congrArg Prod.snd h1).symm

/-- The kernel-computable `qAddNat` agrees with ordinary rational
addition. -/
theorem qAddNat_eq (a : ℚ) (n : ℕ) : qAddNat a n = a + n := by
  have hd : ((a.den : ℚ)) ≠ 0 := by
    exact_mod_cast a.den_nz
  rw [qAddNat, Rat.mkRat_eq_div]
  push_cast
  rw [add_div, mul_div_assoc, div_self hd, mul_one, Rat.num_div_den]

/-- Inversion of a successful `Except` bind. -/
theorem except_bind_ok {α β : Type} {x : Except String α}
    {f : α → Except String β} {b : β} (h : (x >>= f) = .ok b) :
    ∃ a, x = .ok a ∧ f a = .ok b := by
  cases x with
  | error e => exact absurd h (by simp [Bind.bind, Except.bind])
  | ok a => exact ⟨a, rfl, h⟩

/-- A successfully rebuilt dimension carries the serialized name. -/
theorem dim_of_sp_record_name (n : String) (j : JVal) (d : Dimension)
    (h : dim_of_sp_record n j = .ok d) : d.name = n := by
  unfold dim_of_sp_record at h
  obtain ⟨t, _, h⟩ := except_bind_ok h
  by_cases h1 : t = "Categorical"
  · simp only [h1, if_pos rfl] at h
    obtain ⟨cats, _, h⟩ := except_bind_ok h
    cases h
    rfl
  · rw [if_neg h1] at h
    by_cases h2 : t = "Integer"
    · simp only [h2, if_pos rfl] at h
      obtain ⟨lo, _, h⟩ := except_bind_ok h
      obtain ⟨hi, _, h⟩ := except_bind_ok h
      obtain ⟨pr, _, h⟩ := except_bind_ok h
      cases h
      rfl
    · rw [if_neg h2] at h
      by_cases h3 : t = "Real"
      · simp only [h3, if_pos rfl] at h
        obtain ⟨lo, _, h⟩ := except_bind_ok h
        obtain ⟨hi, _, h⟩ := except_bind_ok h
        obtain ⟨pr, _, h⟩ := except_bind_ok h
        cases h
        rfl
      · rw [if_neg h3] at h
        cases h

/-- Rebuilding the dimensions of a serialized space preserves the listed
names, in order. -/
theorem mapExcept_dim_names (entries : List (String × JVal))
    (spaces : List Dimension)
    (h : mapExcept (fun e => dim_of_sp_record e.1 e.2) entries =
      .ok spaces) :
    spaces.map Dimension.name = entries.map Prod.fst := by
  induction entries generalizing spaces with
  | nil =>
    cases h
    rfl
  | cons e rest ih =>
    unfold mapExcept at h
    obtain ⟨d, hd, h⟩ := except_bind_ok h
    obtain ⟨ds, hds, h⟩ := except_bind_ok h
    cases h
    simp [ih ds hds, dim_of_sp_record_name e.1 e.2 d hd]

/-! ## C1 — best-trial query -/

/-- C1: the claim says `best_paras` returns the parameters of the trial
with the global minimum recorded objective value.  The code stores each
trial of `eval_sequence` under the key `err + idx` (objective value plus
trial index, line 900) and `best_paras` minimizes that key, so with
objective values 1 (trial 0) and 1/2 (trial 1) the stored keys are 1 and
3/2, and `best_paras` returns the parameters of trial 0 even though
trial 1 has the strictly smaller objective value. -/
theorem C1_best_paras_not_minimum :
    eval_sequence false exKw exPos ["x"] exParams =
      .ok [(1, [("x", .int 0)]), (mkRat 3 2, [("x", .int 1)])] ∧
    best_paras_results [(1, [("x", .int 0)]), (mkRat 3 2, [("x", .int 1)])]
      ["x"] = some [("x", .int 0)] ∧
    exPos [PyVal.int 0] = .ok 1 ∧
    exPos [PyVal.int 1] = .ok (mkRat 1 2) ∧
    mkRat 1 2 < 1 := by decide

/-! ## C5 — result-store key collisions -/

/-- C5: the claim says the result store holds n distinct entries after n
trials.  The key `err + idx` collides for objective values 2 (trial 0)
and 1 (trial 1): both give key 2, the second trial overwrites the first,
and the store ends with a single entry for two recorded trials. -/
theorem C5_result_store_overwrites :
    exParams.length = 2 ∧
    eval_sequence false exKw exPos2 ["x"] exParams =
      .ok [(2, [("x", .int 1)])] ∧
    [((2 : ℚ), [("x", PyVal.int 1)])].length = 1 := by decide

/-! ## C2 — algorithm/backend compatibility -/

/-- C2 (counterexample): the claim says every supplied backend outside
the compatibility set of the `ALGORITHMS` table fails construction.  The
`bayes` entry of the table lists no backends, yet a `bayes` orchestrator
constructs successfully with the `hyperopt` backend (the `bayes` branch
of the setter validates nothing). -/
theorem C2_outside_table_accepted :
    Backend.hyperopt ∉ tableCompat "bayes" ∧
    constructValidate "bayes" (some .hyperopt) = .ok .hyperopt := by decide

/-- C2 (amended): for every algorithm name of the `ALGORITHMS` table and
every supplied backend, construction succeeds exactly when the backend
lies in the set the setter enforces (`observedCompat`): the table sets
for `tpe`, `atpe`, `random`, `grid` and `cmaes`; all four backends for
`bayes`; no backend at all for `gp`, `forest` and `gbrt`. -/
theorem C2_setter_compat :
    ∀ algorithm ∈ algorithmNames, ∀ b : Backend,
      (constructValidate algorithm (some b) = .ok b ↔
        b ∈ observedCompat algorithm) := by
  decide

/-- Witness for `C2_setter_compat`: the `grid`/`skopt` pair named by the
claim, rejected by the setter and absent from the enforced set. -/
theorem C2_setter_compat_witness :
    constructValidate "grid" (some .skopt) = .ok .skopt ↔
      .skopt ∈ observedCompat "grid" :=
  C2_setter_compat "grid" (by decide) .skopt

/-! ## C3 — grid-search enumeration -/

/-- C3 (counterexample): the claim says grid enumeration follows the
canonical (insertion) parameter order with the first parameter varying
slowest.  Over `gOrder` (canonical order `b`, `a`), trial number 1 of the
code has `a = 10` (because `ParameterGrid` sorts the names and varies `a`
slowest), while the claimed canonical-order enumeration has `a = 11`
there. -/
theorem C3_enumeration_order_counterexample :
    (paramGrid gOrder).length = 4 ∧
    ((paramGrid gOrder)[1]?).bind (List.lookup "a") = some (.int 10) ∧
    ((cartesian gOrder)[1]?).bind (List.lookup "a") = some (.int 11) := by
  decide

/-- C3 (amended): over dimensions with duplicate-free value lists, grid
search evaluates exactly the product of the value counts, every
combination exactly once (trial lists pick one value per dimension, in
the sorted dimension order), and the enumeration is the nested iteration
order over the alphabetically sorted dimensions with the first (sorted)
dimension varying slowest. -/
theorem C3_grid_product_once (g : List (String × List PyVal))
    (h : ∀ d ∈ g, d.2.Nodup) :
    (paramGrid g).length = (g.map (fun d => d.2.length)).prod ∧
    (paramGrid g).Nodup ∧
    (∀ c, c ∈ paramGrid g ↔
      List.Forall₂ (fun kv d => kv.1 = d.1 ∧ kv.2 ∈ d.2) c (sortDims g)) ∧
    (∀ (k : String) (vs : List PyVal) (rest : List (String × List PyVal)),
      cartesian ((k, vs) :: rest) =
        vs.flatMap fun v => (cartesian rest).map fun c => (k, v) :: c) := by
  have hperm : (sortDims g).Perm g := List.perm_insertionSort _ g
  refine ⟨?_, ?_, fun c => mem_cartesian _ c, fun k vs rest => rfl⟩
  · rw [paramGrid, cartesian_length]
    exact (hperm.map _).prod_eq
  · exact cartesian_nodup _ (fun d hd => h d (hperm.subset hd))

/-- Witness for `C3_grid_product_once` on the concrete space `gSmall`. -/
theorem C3_grid_product_once_witness :
    (paramGrid gSmall).length = (gSmall.map (fun d => d.2.length)).prod :=
  (C3_grid_product_once gSmall (by decide)).1

/-! ## C4 — objective calling conventions -/

/-- C4 (counterexample): the claim says a positional objective receives
the values in canonical parameter order.  Over `gCanon` (canonical order
`y`, `x`) the single grid trial is invoked positionally with `[3, 5]`
(the alphabetically sorted order of the `ParameterGrid` mapping), while
the canonical-order convention of the claim would pass `[5, 3]`. -/
theorem C4_positional_order_counterexample :
    (paramGrid gCanon).map (invocationOf false) =
      [.positional [.int 3, .int 5]] ∧
    canonicalPositional ["y", "x"] [("x", .int 3), ("y", .int 5)] =
      [.int 5, .int 3] ∧
    [PyVal.int 3, .int 5] ≠ [PyVal.int 5, .int 3] := by decide

/-- C4 (amended): when the objective accepts arbitrary keyword arguments
it is invoked with the whole parameter mapping; otherwise it is invoked
positionally with the values in the key order of the mapping the sampler
produced (alphabetical for grid search); when that positional call raises
a signature mismatch, the invoker raises a `TypeError` describing the
`use_named_args` setting without ever attempting the keyword convention;
and the detection itself is exactly the presence of a `varkw` entry in
the signature. -/
theorem C4_invocation_conventions
    (fKw : List (String × PyVal) → Except String ℚ)
    (fPos : List PyVal → Except String ℚ)
    (para : List (String × PyVal)) :
    (evalObjectiveOnce true fKw fPos para = fKw para) ∧
    (∀ v, fPos (para.map Prod.snd) = .ok v →
      evalObjectiveOnce false fKw fPos para = .ok v) ∧
    (∀ e, fPos (para.map Prod.snd) = .error e →
      evalObjectiveOnce false fKw fPos para =
        .error "TypeError: use_named_args argument is set to False") ∧
    (∀ varkw : Option String, use_named_args false varkw = varkw.isSome) := by
  refine ⟨rfl, fun v hv => ?_, fun e he => ?_, fun varkw => ?_⟩
  · simp [evalObjectiveOnce, hv]
  · simp [evalObjectiveOnce, he]
  · cases varkw <;> rfl

/-- Witness for `C4_invocation_conventions`: a succeeding positional
call, and a failing one that yields the chained `TypeError` even though
the keyword objective `exKw` would have succeeded. -/
theorem C4_invocation_conventions_witness :
    evalObjectiveOnce false exKw exPos [("x", .int 0)] = .ok 1 ∧
    evalObjectiveOnce false exKw exPosFail [("x", .int 0)] =
      .error "TypeError: use_named_args argument is set to False" :=
  ⟨(C4_invocation_conventions exKw exPos [("x", .int 0)]).2.1 1 rfl,
   (C4_invocation_conventions exKw exPosFail [("x", .int 0)]).2.2.1
     "TypeError: unexpected positional arguments" rfl⟩

/-! ## C6 — persistence round trip -/

/-- C6 (counterexample): the claim says the trial-history record written
by `save_iterations_as_xy` can be fed back through `from_gp_parameters`.
The loader begins by reading the `space` field, which a trial-history
record (string-encoded objective values as keys) does not have, so the
reconstruction fails with a `KeyError` instead of producing a result
store. -/
theorem C6_history_record_not_loadable :
    from_gp_parameters_json
      (save_iterations_record [(mkRat 1 2, [("x", .int 0)])]) =
      .error "KeyError: space" := by rfl

/-- C6 (amended): the record `from_gp_parameters` can consume is the
gp-minimize results record (with `space`, `x_iters` and `func_vals`
fields); reconstructing from the record of a live run rebuilds the same
dimension names and stores the record itself, so the best-trial query of
the reconstructed optimizer equals that of the live run. -/
theorem C6_gp_record_round_trip (g : JVal) (recon live : Optimizer)
    (hload : from_gp_parameters_json g = .ok recon)
    (hlive : live.gpmin_results = some g)
    (hnames : space_field_names g = some live.space_names) :
    recon.best = live.best := by
  unfold from_gp_parameters_json at hload
  obtain ⟨sp, hsp, hload⟩ := except_bind_ok hload
  cases sp with
  | prim v => simp [Pure.pure, Except.pure] at hload
  | arr l => simp [Pure.pure, Except.pure] at hload
  | obj entries =>
    obtain ⟨spaces, hspaces, hpure⟩ := except_bind_ok hload
    have hrecon : recon =
        { param_space := spaces, gpmin_results := some g } := by
      cases hpure
      rfl
    have hnames2 : spaces.map Dimension.name = entries.map Prod.fst :=
      mapExcept_dim_names entries spaces hspaces
    unfold space_field_names at hnames
    rw [hsp] at hnames
    have hnames3 : entries.map Prod.fst = live.space_names :=
      Option.some_injective _ hnames
    subst hrecon
    unfold Optimizer.best
    rw [hlive]
    show best_paras_gpmin (spaces.map Dimension.name) g =
      best_paras_gpmin live.space_names g
    rw [hnames2, hnames3]

/-- Witness for `C6_gp_record_round_trip` on the record `gRecEx`. -/
theorem C6_gp_record_round_trip_witness :
    Optimizer.best optEx = Optimizer.best liveEx :=
  C6_gp_record_round_trip gRecEx optEx liveEx rfl rfl rfl

/-! ## C7 — backend defaults -/

/-- C7 (counterexample): the claim says an omitted backend resolves to
the hyperopt-style backend for `tpe`; the setter defaults `tpe` to
`optuna` (line 385). -/
theorem C7_tpe_defaults_to_optuna :
    constructValidate "tpe" none = .ok .optuna ∧
    constructValidate "tpe" none ≠ .ok .hyperopt := by decide

/-- C7 (amended): the omitted-backend defaults are `grid`/`random` to
`sklearn` (native enumeration), `bayes` to `skopt` (sequential
model-based), `atpe` to `hyperopt` (density-ratio-sequential), and both
`tpe` and `cmaes` to `optuna` (trial-study). -/
theorem C7_default_backends :
    constructValidate "grid" none = .ok .sklearn ∧
    constructValidate "random" none = .ok .sklearn ∧
    constructValidate "bayes" none = .ok .skopt ∧
    constructValidate "tpe" none = .ok .optuna ∧
    constructValidate "atpe" none = .ok .hyperopt ∧
    constructValidate "cmaes" none = .ok .optuna := by decide

/-! ## C8 — space inference from literal lists -/

/-- C8 (counterexample): the claim says a list of length at most 2 is
inferred as `Categorical`.  The numeric two-element list `[1, 2]` is
inferred as an `Integer` range instead. -/
theorem C8_short_numeric_not_categorical :
    space_from_list [.int 1, .int 2] "k" =
      .ok (.Integer (some 1) (some 2) none none "k") ∧
    Except.map Dimension.isCat (space_from_list [.int 1, .int 2] "k") =
      .ok false := by decide

/-- C8 (amended): the inference rule of `space_from_list` is: a numeric
list of length over 2 becomes an `Integer`/`Real` dimension carrying the
list as an explicit grid; a numeric list of length at most 2 becomes an
`Integer`/`Real` dimension with range from min to max; a list with a
non-numeric head becomes `Categorical` at any length. -/
theorem C8_inference_rule :
    (∀ (n m : ℤ) (k : String),
      space_from_list [.int n, .int m] k =
        .ok (.Integer (some (min (n : ℚ) (m : ℚ)))
          (some (max (n : ℚ) (m : ℚ))) none none k)) ∧
    (∀ (n : ℤ) (k : String),
      space_from_list [.int n] k =
        .ok (.Integer (some (n : ℚ)) (some (n : ℚ)) none none k)) ∧
    (∀ (a b : ℚ) (k : String),
      space_from_list [.float a, .float b] k =
        .ok (.Real (some (min a b)) (some (max a b)) none none k)) ∧
    (∀ (a : ℚ) (k : String),
      space_from_list [.float a] k =
        .ok (.Real (some a) (some a) none none k)) ∧
    (∀ (n : ℤ) (v₁ v₂ : PyVal) (rest : List PyVal) (k : String),
      space_from_list (.int n :: v₁ :: v₂ :: rest) k =
        .ok (.Integer none none none (some (.int n :: v₁ :: v₂ :: rest)) k)) ∧
    (∀ (a : ℚ) (v₁ v₂ : PyVal) (rest : List PyVal) (k : String),
      space_from_list (.float a :: v₁ :: v₂ :: rest) k =
        .ok (.Real none none none (some (.float a :: v₁ :: v₂ :: rest)) k)) ∧
    (∀ (s : String) (rest : List PyVal) (k : String),
      space_from_list (.str s :: rest) k =
        .ok (.Categorical (.str s :: rest) k)) := by
  refine ⟨fun n m k => rfl, fun n k => rfl, fun a b k => rfl, fun a k => rfl,
    fun n v₁ v₂ rest k => ?_, fun a v₁ v₂ rest k => ?_,
    fun s rest k => ?_⟩
  · have h3 : 2 < (PyVal.int n :: v₁ :: v₂ :: rest).length := by
      simp only [List.length_cons]
      omega
    simp only [space_from_list]
    rw [if_pos h3]
  · have h3 : 2 < (PyVal.float a :: v₁ :: v₂ :: rest).length := by
      simp only [List.length_cons]
      omega
    simp only [space_from_list]
    rw [if_pos h3]
  · simp only [space_from_list]
    split <;> rfl

/-! ## C9 — algorithms that always fail construction -/

/-- C9: `gp`, `forest` and `gbrt` are keys of `ALGORITHMS` and thus pass
the algorithm-name validation of the constructor, yet the backend setter
falls into its final `raise ValueError` branch for them with every
backend value, including the omitted one, so construction always
fails. -/
theorem C9_gp_forest_gbrt_unconstructible :
    ("gp" ∈ algorithmNames ∧
      ∀ b? : Option Backend,
        constructValidate "gp" b? = .error "ValueError") ∧
    ("forest" ∈ algorithmNames ∧
      ∀ b? : Option Backend,
        constructValidate "forest" b? = .error "ValueError") ∧
    ("gbrt" ∈ algorithmNames ∧
      ∀ b? : Option Backend,
        constructValidate "gbrt" b? = .error "ValueError") := by decide

/-! ## C10 — attribute lookup recursion -/

/-- C10: on a constructor path that never assigns `optfn`, looking up any
attribute that is not defined on the object never returns and never
raises `AttributeError`: `__getattr__` evaluates `self.optfn`, whose own
lookup re-enters `__getattr__`, so no amount of evaluation fuel produces
an outcome. -/
theorem C10_getattr_nonterminating (defined : List String)
    (optfnHas : String → Bool) (hOptfn : "optfn" ∉ defined) :
    ∀ item, item ∉ defined → ∀ fuel,
      getattrModel defined optfnHas fuel item = none := by
  intro item hItem fuel
  induction fuel generalizing item with
  | zero => rfl
  | succ n ih =>
    unfold getattrModel
    rw [if_neg hItem, ih "optfn" hOptfn]

/-- Witness for `C10_getattr_nonterminating`: looking up `trials` on the
gp-minimize path with 100 units of fuel yields no outcome. -/
theorem C10_getattr_nonterminating_witness :
    getattrModel gpminPathAttrs (fun _ => true) 100 "trials" = none :=
  C10_getattr_nonterminating gpminPathAttrs (fun _ => true) (by decide)
    "trials" (by decide) 100

end DL4Seq
